import Mathlib

/-!
Shallow embedding of the orchestration core of restic-PyBM
(src/restic-PyBM.py), a restic wrapper and Nagios-style status checker.

Modelling conventions:
* Machine-level Python slips that would abort the interpreter before any
  orchestration logic runs are read as the obviously intended operation:
  the calls written as os.environ.set(k, v) (os.environ has no such
  method) are read as environment assignment, and the stray closing
  parenthesis on source line 295 is ignored.  Every semantically
  meaningful behaviour of the source is kept exactly: which exception
  classes are caught where, the unconditional accumulation of both
  message strings, the if / elif fall-through that sends the create
  action into the run branch, the undefined variable named result in the
  age-check success path, and the IndexError on an empty snapshot list.
* Timestamps and time differences are integers counted in seconds;
  Python timedelta comparison is comparison of total durations, so
  timedelta(days=n) becomes 86400 * n.  The strptime parsing of the
  engine-provided time strings is not modelled: snapshot times enter the
  model already as integers.
* The external restic engine and the vault client are oracles supplied
  as function-valued fields; an engine call either returns a value or
  raises the engine error (the class the source catches as
  restic.errors.Error).
* YAML scalars that the source converts with int() at use sites
  (max_age, min_age) are modelled as naturals.
-/

set_option linter.unusedVariables false

namespace ResticPyBM

/-- Exception classes that can escape or be caught during a run.  The
source catches only the engine error class; keyError, typeError,
nameError and indexError model the corresponding Python built-ins, and
vaultError models an exception raised by the vault client. -/
inductive Exc where
  | engineError
  | keyError (k : String)
  | typeError
  | nameError (v : String)
  | indexError
  | vaultError
deriving DecidableEq

/-- The five command line actions accepted by the argument parser. -/
inductive Action where
  | run
  | create
  | list
  | prune
  | check
deriving DecidableEq

/-- The key entry of a repository in the configuration file: either an
inline static secret string, or a vault path and mountpoint mapping. -/
inductive Secret where
  | static (secret : String)
  | vaultRef (path mountpoint : String)
deriving DecidableEq

/-- Per-repository configuration, as read from the YAML file. -/
structure RepoConfig where
  location : String
  key : Secret
  duplicate : Option String
  includes : List String
  excludes : Option (List String)
  max_age : Nat
  min_age : Nat
deriving DecidableEq

/-- The data mapping returned by a vault secret read. -/
structure VaultData where
  password : Option String
  keyID : Option String
  applicationKey : Option String
deriving DecidableEq

/-- The value returned by get_repo_password: either the raw key entry
passed through untouched (no vault), a scalar password fetched from
vault, or the whole vault data mapping (object-storage locations). -/
inductive Credential where
  | passthrough (k : Secret)
  | password (p : String)
  | b2dict (d : VaultData)
deriving DecidableEq

/-- The configured repositories, in declaration order (Python dicts
preserve insertion order). -/
abbrev Repos := List (String × RepoConfig)

/-- Dictionary lookup over the repository mapping. -/
def lookupRepo (repos : Repos) (name : String) : Option RepoConfig :=
  match repos with
  | [] => none
  | (n, cfg) :: rest => if n = name then some cfg else lookupRepo rest name

/-- Source lines 97 to 108: obtain a repository password.  Without a
vault session the raw key entry is returned unchanged; with one, the
secret at the configured path and mountpoint is read, and either the
whole data mapping (location has the b2: prefix) or only its password
field is returned.  Subscripting a static string key with a string index
raises TypeError; a missing password field raises KeyError. -/
def get_repo_password (repos : Repos) (currentRepo : String)
    (vault : Option (String → String → Except Unit VaultData)) :
    Except Exc Credential :=
  match lookupRepo repos currentRepo with
  | none => .error (.keyError currentRepo)
  | some cfg =>
    match vault with
    | some readSecret =>
      match cfg.key with
      | .static _ => .error .typeError
      | .vaultRef path mountpoint =>
        match readSecret path mountpoint with
        | .error _ => .error .vaultError
        | .ok d =>
          if cfg.location.take 3 = "b2:" then .ok (.b2dict d)
          else
            match d.password with
            | none => .error (.keyError "password")
            | some p => .ok (.password p)
    | none => .ok (.passthrough cfg.key)

/-- The process environment entries the script writes. -/
structure Env where
  resticPassword : Option String
  resticPassword2 : Option String
  b2AccountId : Option String
  b2AccountKey : Option String
deriving DecidableEq

/-- The environment before a repository is processed. -/
def emptyEnv : Env := ⟨none, none, none, none⟩

/-- Source lines 187 to 192: export the credentials of the current
repository.  For a b2: location the keyID, applicationKey and password
fields of the credential mapping are exported (subscripting a string
credential raises TypeError, a missing field raises KeyError); otherwise
the credential itself is exported as the restic password (a non-string
credential cannot be placed in the environment: TypeError). -/
def envSetCreds (cfg : RepoConfig) (creds : Credential) (env : Env) :
    Except Exc Env :=
  if cfg.location.take 3 = "b2:" then
    match creds with
    | .b2dict d =>
      match d.keyID, d.applicationKey, d.password with
      | some kid, some ak, some pw =>
        .ok { env with
              b2AccountId := some kid,
              b2AccountKey := some ak,
              resticPassword := some pw }
      | none, _, _ => .error (.keyError "keyID")
      | some _, none, _ => .error (.keyError "applicationKey")
      | some _, some _, none => .error (.keyError "password")
    | .passthrough (.vaultRef _ _) => .error (.keyError "keyID")
    | _ => .error .typeError
  else
    match creds with
    | .passthrough (.static s) => .ok { env with resticPassword := some s }
    | .password p => .ok { env with resticPassword := some p }
    | _ => .error .typeError

/-- A credential value written to a single environment entry must be a
string; anything else raises TypeError. -/
def credAsEnvStr (c : Credential) : Except Exc String :=
  match c with
  | .passthrough (.static s) => .ok s
  | .password p => .ok p
  | _ => .error .typeError

/-- Command line flags relevant to the orchestration core. -/
structure Args where
  action : Action
  full : Bool
  age : Bool
  perfdata : Bool
  verbose : Bool
  quiet : Bool
deriving DecidableEq

/-- One host group of the engine snapshot listing; each snapshot is
reduced to its timestamp. -/
structure Group where
  snapshots : List Int
deriving DecidableEq

/-- Oracle for the external restic engine.  Each operation receives the
arguments the script passes and either returns a result or raises the
engine error class. -/
structure Engine where
  initRes : String → Option String → Bool → Except Unit Unit
  forgetRes : String → String → String → Bool → Except Unit Unit
  checkRes : String → Bool → Except Unit Bool
  snapshotsRes : String → String → Except Unit (List Group)
  copyRes : String → String → Except Unit Unit
  backupRes : String → List String → List String → Except Unit Unit
  unlockRes : String → Except Unit Unit

/-- Everything a run needs: the configuration, the parsed arguments, the
optional vault session, the engine oracle and the current time. -/
structure Ctx where
  repos : Repos
  args : Args
  vault : Option (String → String → Except Unit VaultData)
  engine : Engine
  now : Int

/-- Engine calls the script makes, recorded in invocation order. -/
inductive ECall where
  | init
  | forget
  | check
  | snapshots
  | copy
  | backup
  | unlock
deriving DecidableEq

/-- Seconds in one day; a Python timedelta of n days compares as
86400 * n seconds. -/
def timedeltaDays (n : Nat) : Int := 86400 * n

/-- Source line 269: the oldest-snapshot error text.  The source renders
the age with the timedelta formatter; the model renders the raw count. -/
def oldestMsg (currentRepo : String) (d : Int) : String :=
  "Oldest snapshot on " ++ currentRepo ++ " is " ++ toString d ++ " old"

/-- Source line 272: the newest-snapshot error text. -/
def newestMsg (currentRepo : String) (d : Int) : String :=
  "Newest snapshot on " ++ currentRepo ++ " is " ++ toString d ++ " old"

/-- Source lines 253 to 276: the body of the age evaluation.  The oldest
timestamp is the first entry of the first host group and the newest is
its last entry (an empty list raises IndexError).  If the oldest age
exceeds max_age days the error message is set to the oldest text; if the
newest age exceeds min_age days the error message is then set to the
newest text, otherwise the success branch appends to the undefined
variable named result, raising NameError. -/
def ageCheckBody (snaps : List Group) (currentRepo : String)
    (maxAge minAge : Nat) (now : Int) (errorMessage : String) :
    Except Exc String :=
  match snaps with
  | [] => .error .indexError
  | g :: _ =>
    match g.snapshots with
    | [] => .error .indexError
    | t0 :: ts =>
      let oldestTime := t0
      let newestTime := ts.getLastD t0
      let oldDiff := now - oldestTime
      let newDiff := now - newestTime
      let errorMessage1 :=
        if oldDiff > timedeltaDays maxAge then oldestMsg currentRepo oldDiff
        else errorMessage
      if newDiff > timedeltaDays minAge then
        .ok (newestMsg currentRepo newDiff)
      else .error (.nameError "result")

/-- Source lines 214 to 227: the create block.  It runs whenever the
action is create; for a duplicate target the source location is looked
up first and init is called with it and with chunker-parameter copying.
Its success and error messages are always overwritten afterwards because
the prune test on line 229 is an if, not an elif, so the dispatch chain
falls through to the run branch for the create action; the messages are
therefore not reproduced here. -/
def createPhase (ctx : Ctx) (cfg : RepoConfig) (dup : Option String) :
    List ECall × Except Exc Unit :=
  if ctx.args.action = .create then
    match dup with
    | some duplicateSource =>
      match lookupRepo ctx.repos duplicateSource with
      | none => ([], .error (.keyError duplicateSource))
      | some srcCfg =>
        match ctx.engine.initRes cfg.location (some srcCfg.location) true with
        | .error _ => ([.init], .error .engineError)
        | .ok _ => ([.init], .ok ())
    | none =>
      match ctx.engine.initRes cfg.location none false with
      | .error _ => ([.init], .error .engineError)
      | .ok _ => ([.init], .ok ())
  else ([], .ok ())

/-- Source lines 212 to 311: the action dispatch for one repository.
Returns the trace of engine calls together with either the escaping
exception or the success message, the error message, the repository the
engine is left pointing at (the unlock target) and the environment.  The
final else branch serves both the run action and the create action
(fall-through); for a duplicate target it repoints the engine at the
source repository, copies into the target, and moves the secondary
password into the primary environment entry.  In the check branch the
age evaluation (source lines 249 to 279) wraps the snapshot listing and
the evaluation body in a handler that catches only the engine error
class, so a failed listing becomes an error message while the IndexError
and NameError raised by the body escape the loop. -/
def primaryAction (ctx : Ctx) (currentRepo : String) (cfg : RepoConfig)
    (dup : Option String) (env : Env) :
    List ECall × Except Exc (String × String × String × Env) :=
  match createPhase ctx cfg dup with
  | (tr1, .error e) => (tr1, .error e)
  | (tr1, .ok _) =>
    if ctx.args.action = .prune then
      match ctx.engine.forgetRes cfg.location "host" (toString cfg.max_age ++ "d") true with
      | .error _ => (tr1 ++ [.forget], .error .engineError)
      | .ok _ =>
        (tr1 ++ [.forget],
         .ok ("Repository " ++ currentRepo ++ " clean up successful",
              "Error cleaning up repository " ++ currentRepo,
              cfg.location, env))
    else if ctx.args.action = .check then
      match ctx.engine.checkRes cfg.location ctx.args.full with
      | .error _ => (tr1 ++ [.check], .error .engineError)
      | .ok false =>
        (tr1 ++ [.check],
         .ok ("Repository " ++ currentRepo ++ " is healthy",
              "Error checking repository " ++ currentRepo,
              cfg.location, env))
      | .ok true =>
        if ctx.args.age then
          match ctx.engine.snapshotsRes cfg.location "host" with
          | .error _ =>
            (tr1 ++ [.check, .snapshots],
             .ok ("Repository " ++ currentRepo ++ " is healthy",
                  "Error getting snapshots for repository " ++ currentRepo,
                  cfg.location, env))
          | .ok snaps =>
            match ageCheckBody snaps currentRepo cfg.max_age cfg.min_age ctx.now "" with
            | .error e => (tr1 ++ [.check, .snapshots], .error e)
            | .ok errorMessage =>
              (tr1 ++ [.check, .snapshots],
               .ok ("Repository " ++ currentRepo ++ " is healthy",
                    errorMessage, cfg.location, env))
        else
          (tr1 ++ [.check],
           .ok ("Repository " ++ currentRepo ++ " is healthy", "",
                cfg.location, env))
    else if ctx.args.action = .list then
      match ctx.engine.snapshotsRes cfg.location "host" with
      | .error _ => (tr1 ++ [.snapshots], .error .engineError)
      | .ok _ =>
        (tr1 ++ [.snapshots],
         .ok ("Snapshot list retreived for repository " ++ currentRepo,
              "Error listing snapshots on repository " ++ cfg.location,
              cfg.location, env))
    else
      match dup with
      | some duplicateSource =>
        match lookupRepo ctx.repos duplicateSource with
        | none => (tr1, .error (.keyError duplicateSource))
        | some srcCfg =>
          match ctx.engine.copyRes srcCfg.location cfg.location with
          | .error _ => (tr1 ++ [.copy], .error .engineError)
          | .ok _ =>
            (tr1 ++ [.copy],
             .ok ("Snapshot successfully created on repository " ++ currentRepo,
                  "Error creating new snapshot on repository " ++ cfg.location,
                  srcCfg.location,
                  { env with resticPassword := env.resticPassword2 }))
      | none =>
        let excludes := "lost+found" ::
          (match cfg.excludes with
           | some es => es
           | none => [])
        match ctx.engine.backupRes cfg.location cfg.includes excludes with
        | .error _ => (tr1 ++ [.backup], .error .engineError)
        | .ok _ =>
          (tr1 ++ [.backup],
           .ok ("Snapshot successfully created on repository " ++ currentRepo,
                "Error creating new snapshot on repository " ++ cfg.location,
                cfg.location, env))

/-- Source lines 183 to 206: credential resolution and environment
setup for one repository.  Returns the configuration, the optional
duplicate source name, and the environment after the exports, including
the password swap that the run action performs.  (In the source the
environment persists across loop iterations; no execution path reads an
entry written by an earlier iteration, so each repository starts from
the empty environment here.) -/
def phase1 (ctx : Ctx) (currentRepo : String) :
    Except Exc (RepoConfig × Option String × Env) :=
  match get_repo_password ctx.repos currentRepo ctx.vault with
  | .error e => .error e
  | .ok repoCredentials =>
    match lookupRepo ctx.repos currentRepo with
    | none => .error (.keyError currentRepo)
    | some cfg =>
      match envSetCreds cfg repoCredentials emptyEnv with
      | .error e => .error e
      | .ok env =>
        match cfg.duplicate with
        | none => .ok (cfg, none, env)
        | some duplicateSource =>
          match get_repo_password ctx.repos duplicateSource ctx.vault with
          | .error e => .error e
          | .ok repoCredentials2 =>
            match credAsEnvStr repoCredentials2 with
            | .error e => .error e
            | .ok p2 =>
              let env2 := { env with resticPassword2 := some p2 }
              if ctx.args.action = .run then
                .ok (cfg, some duplicateSource,
                     { env2 with
                       resticPassword := env2.resticPassword2,
                       resticPassword2 := env2.resticPassword })
              else
                .ok (cfg, some duplicateSource, env2)

/-- One iteration of the main loop (source lines 181 to 320): credential
setup, the primary action, and the unlock attempt.  The unlock call is
wrapped in a handler for the engine error class whose body records a
warning by setting the script return value to 1; the boolean returned
here is that unlock-failed flag. -/
def processRepo (ctx : Ctx) (currentRepo : String) :
    List ECall × Except Exc (String × String × Bool) :=
  match phase1 ctx currentRepo with
  | .error e => ([], .error e)
  | .ok (cfg, dup, env) =>
    match primaryAction ctx currentRepo cfg dup env with
    | (tr, .error e) => (tr, .error e)
    | (tr, .ok (successMessage, errorMessage, resticRepository, env2)) =>
      match ctx.engine.unlockRes resticRepository with
      | .error _ => (tr ++ [.unlock], .ok (successMessage, errorMessage, true))
      | .ok _ => (tr ++ [.unlock], .ok (successMessage, errorMessage, false))

/-- Source lines 181 to 320, iterated: the main loop over the selected
repositories, threading the script return value and the two accumulated
message strings, and collecting the engine-call trace of every
repository.  An uncaught exception aborts the loop with the traces
gathered so far. -/
def runRepos (ctx : Ctx) :
    List String → Nat → String → String → List (String × List ECall) →
    List (String × List ECall) × Except Exc (Nat × String × String)
  | [], rv, sAcc, eAcc, traces => (traces, .ok (rv, sAcc, eAcc))
  | currentRepo :: rest, rv, sAcc, eAcc, traces =>
    match processRepo ctx currentRepo with
    | (tr, .error e) => (traces ++ [(currentRepo, tr)], .error e)
    | (tr, .ok (successMessage, errorMessage, unlockFailed)) =>
      runRepos ctx rest (if unlockFailed then 1 else rv)
        (sAcc ++ successMessage ++ ". ")
        (eAcc ++ errorMessage ++ ". ")
        (traces ++ [(currentRepo, tr)])

/-- Source lines 111 to 133: the exit code chosen by end_script from the
script return value. -/
def end_script_exit (returnCode : Nat) : Nat :=
  if returnCode = 2 then 2 else if returnCode = 1 then 1 else 0

/-- Source lines 156 to 162: the repositories a run processes, in
configuration order for the ALL_REPOS default. -/
def reposToProcess (repos : Repos) (repoArg : String) : List String :=
  if repoArg = "ALL_REPOS" then repos.map (fun e => e.1) else [repoArg]

/-- The whole run after configuration parsing (source lines 143 to 331):
the repository-existence check that exits 2, then the main loop, then
end_script; an uncaught exception aborts the run without an orderly
exit. -/
def scriptExit (ctx : Ctx) (repoArg : String) : Except Exc Nat :=
  if lookupRepo ctx.repos repoArg = none ∧ repoArg ≠ "ALL_REPOS" then
    .ok 2
  else
    match (runRepos ctx (reposToProcess ctx.repos repoArg) 0 "" "" []).2 with
    | .error e => .error e
    | .ok (rv, successMsg, errorMsg) => .ok (end_script_exit rv)

/-- Concatenation of per-repository message fragments, each terminated
by the separator the accumulators append. -/
def joinFragments : List String → String
  | [] => ""
  | m :: rest => m ++ ". " ++ joinFragments rest

/-- An engine oracle on which every operation succeeds, the check
reports success and the snapshot listing is empty. -/
def engAllOk : Engine :=
  { initRes := fun _ _ _ => .ok ()
    forgetRes := fun _ _ _ _ => .ok ()
    checkRes := fun _ _ => .ok true
    snapshotsRes := fun _ _ => .ok []
    copyRes := fun _ _ => .ok ()
    backupRes := fun _ _ _ => .ok ()
    unlockRes := fun _ => .ok () }

/-- A standard repository with a static inline secret. -/
def cfgStd : RepoConfig :=
  { location := "/srv/repo1", key := .static "hunter2", duplicate := none
    includes := ["/home"], excludes := none, max_age := 30, min_age := 7 }

/-- Command line: the check action with every flag off. -/
def argsCheck : Args :=
  { action := .check, full := false, age := false, perfdata := false
    verbose := false, quiet := false }

/-- Run context for the prune action on one repository whose forget
operation fails with an engine error. -/
def ctxPruneFails : Ctx :=
  { repos := [("repo1", cfgStd)]
    args := { argsCheck with action := .prune }
    vault := none
    engine := { engAllOk with forgetRes := fun _ _ _ _ => .error () }
    now := 0 }

/-- Run context for the list action on one repository with a fully
successful engine. -/
def ctxListOk : Ctx :=
  { repos := [("repo1", cfgStd)]
    args := { argsCheck with action := .list }
    vault := none
    engine := engAllOk
    now := 0 }

/-- Run context for the list action on one repository whose unlock
fails with an engine error. -/
def ctxUnlockFails : Ctx :=
  { repos := [("repo1", cfgStd)]
    args := { argsCheck with action := .list }
    vault := none
    engine := { engAllOk with unlockRes := fun _ => .error () }
    now := 0 }

/-- A duplicate-target repository whose source name is absent from the
configuration. -/
def cfgDupMissing : RepoConfig :=
  { location := "/srv/target", key := .static "pw", duplicate := some "missing"
    includes := [], excludes := none, max_age := 30, min_age := 7 }

/-- Run context for the run action on the duplicate target with the
absent source. -/
def ctxDupMissing : Ctx :=
  { repos := [("target", cfgDupMissing)]
    args := { argsCheck with action := .run }
    vault := none
    engine := engAllOk
    now := 0 }

/-- Run context for claim C1: the check action over one repository whose
structural check reports failure while everything else succeeds. -/
def ctxCheckFails : Ctx :=
  { repos := [("repo1", cfgStd)]
    args := argsCheck
    vault := none
    engine := { engAllOk with checkRes := fun _ _ => .ok false }
    now := 0 }

/-- Run context for claim C2: the check action with age checking on one
repository whose snapshot listing holds an oldest snapshot 10 days old
and a newest snapshot 1 day old, against max_age 30 and min_age 7. -/
def ctxAgeOk : Ctx :=
  { repos := [("repo1", cfgStd)]
    args := { argsCheck with age := true }
    vault := none
    engine := { engAllOk with snapshotsRes := fun _ _ => .ok [Group.mk [7776000, 8553600]] }
    now := 8640000 }

/-- Run context for claim C4: the check action with age checking on one
repository whose snapshot listing is empty. -/
def ctxEmptySnaps : Ctx :=
  { repos := [("repo1", cfgStd)]
    args := { argsCheck with age := true }
    vault := none
    engine := engAllOk
    now := 8640000 }

/-- Run context for the list action over two repositories with a fully
successful engine. -/
def ctxTwoRepos : Ctx :=
  { repos := [("r1", { location := "/srv/r1", key := .static "k1", duplicate := none
                       includes := [], excludes := none, max_age := 30, min_age := 7 }),
              ("r2", { location := "/srv/r2", key := .static "k2", duplicate := none
                       includes := [], excludes := none, max_age := 30, min_age := 7 })]
    args := { argsCheck with action := .list }
    vault := none
    engine := engAllOk
    now := 0 }

/-- The create block never invokes unlock. -/
theorem createPhase_count_unlock (ctx : Ctx) (cfg : RepoConfig) (dup : Option String) :
    ((createPhase ctx cfg dup).1).count ECall.unlock = 0 := by
  unfold createPhase
  repeat' split
  all_goals rfl

/-- The action dispatch never invokes unlock. -/
theorem primaryAction_count_unlock (ctx : Ctx) (currentRepo : String)
    (cfg : RepoConfig) (dup : Option String) (env : Env) :
    ((primaryAction ctx currentRepo cfg dup env).1).count ECall.unlock = 0 := by
  unfold primaryAction
  rcases h1 : createPhase ctx cfg dup with ⟨tr1, res1⟩
  have hc : tr1.count ECall.unlock = 0 := by
    have h2 := createPhase_count_unlock ctx cfg dup
    rw [h1] at h2
    exact h2
  cases res1 with
  | error e => simpa using hc
  | ok u =>
    repeat' split
    all_goals simp_all [List.count_append, List.count_cons, List.count_nil]
    all_goals split
    all_goals simp_all [List.count_append, List.count_cons, List.count_nil]

/-- Claim C5, counterexample: with a single repository whose prune
action fails with an engine error, the exception escapes the loop, the
run aborts, and unlock is never invoked for that repository, refuting
the claim that unlock runs once per processed repository regardless of a
primary-action EngineError. -/
theorem c5_unlock_skipped_on_engine_error :
    processRepo ctxPruneFails "repo1" = ([ECall.forget], .error .engineError) ∧
    ([ECall.forget].count ECall.unlock = 0) ∧
    scriptExit ctxPruneFails "ALL_REPOS" = .error .engineError := by
  exact ⟨rfl, rfl, rfl⟩

/-- Claim C5, amended: for every repository whose loop iteration runs to
completion without an uncaught exception (the primary action succeeded,
or the check reported failure, or the age check failed in a way the
handler catches), unlock is invoked exactly once, as the last engine
call; an iteration that aborts with an uncaught exception never invokes
unlock. -/
theorem c5_unlock_once_per_completed_repository (ctx : Ctx) (currentRepo : String) :
    (∀ tr sm em uf, processRepo ctx currentRepo = (tr, .ok (sm, em, uf)) →
       tr.count ECall.unlock = 1 ∧ tr.getLast? = some ECall.unlock) ∧
    (∀ tr e, processRepo ctx currentRepo = (tr, .error e) →
       tr.count ECall.unlock = 0) := by
  constructor
  · intro tr sm em uf h
    unfold processRepo at h
    split at h
    · simp at h
    · rename_i cfg dup env hphase
      split at h
      · simp at h
      · rename_i trP sm2 em2 loc2 env2 heq
        have hcount : trP.count ECall.unlock = 0 := by
          have h2 := primaryAction_count_unlock ctx currentRepo cfg dup env
          rw [heq] at h2
          exact h2
        split at h <;>
          (injection h with h1 h2; subst h1;
           exact ⟨by simp [List.count_append, List.count_cons, List.count_nil, hcount],
                 List.getLast?_concat _⟩)
  · intro tr e h
    unfold processRepo at h
    split at h
    · injection h with h1 h2
      subst h1
      rfl
    · rename_i cfg dup env hphase
      split at h
      · rename_i trP e2 heq
        have hcount : trP.count ECall.unlock = 0 := by
          have h2 := primaryAction_count_unlock ctx currentRepo cfg dup env
          rw [heq] at h2
          exact h2
        injection h with h1 h2
        subst h1
        exact hcount
      · split at h <;> simp at h

/-- Witness for the amended claim C5 at a concrete input: the completed
list iteration invokes unlock exactly once, as the last engine call. -/
theorem c5_unlock_once_per_completed_repository_witness :
    [ECall.snapshots, ECall.unlock].count ECall.unlock = 1 ∧
    [ECall.snapshots, ECall.unlock].getLast? = some ECall.unlock :=
  (c5_unlock_once_per_completed_repository ctxListOk "repo1").1
    [ECall.snapshots, ECall.unlock]
    "Snapshot list retreived for repository repo1"
    "Error listing snapshots on repository /srv/repo1" false rfl

/-- Claim C6: a failed unlock sets the script return value to exactly 1
(WARNING) - never 2 - and the loop proceeds to the remaining
repositories unchanged; moreover the return value of a completed loop
never exceeds 1, so an unlock failure can never produce the CRITICAL
exit on its own. -/
theorem c6_unlock_failure_warning_only :
    (∀ (ctx : Ctx) (currentRepo : String) (rest : List String) (rv : Nat)
       (sAcc eAcc : String) (traces : List (String × List ECall))
       (tr : List ECall) (sm em : String),
       processRepo ctx currentRepo = (tr, .ok (sm, em, true)) →
       runRepos ctx (currentRepo :: rest) rv sAcc eAcc traces
         = runRepos ctx rest 1 (sAcc ++ sm ++ ". ") (eAcc ++ em ++ ". ")
             (traces ++ [(currentRepo, tr)])) ∧
    (∀ (ctx : Ctx) (names : List String) (rv : Nat) (sAcc eAcc : String)
       (traces traces2 : List (String × List ECall)) (rv2 : Nat) (s2 e2 : String),
       rv ≤ 1 →
       runRepos ctx names rv sAcc eAcc traces = (traces2, .ok (rv2, s2, e2)) →
       rv2 ≤ 1) := by
  constructor
  · intro ctx currentRepo rest rv sAcc eAcc traces tr sm em h
    simp only [runRepos]
    rw [h]
    rfl
  · intro ctx names
    induction names with
    | nil =>
      intro rv sAcc eAcc traces traces2 rv2 s2 e2 hrv h
      simp only [runRepos, Prod.mk.injEq, Except.ok.injEq] at h
      obtain ⟨h1, h2, h3, h4⟩ := h
      exact h2 ▸ hrv
    | cons r rest ih =>
      intro rv sAcc eAcc traces traces2 rv2 s2 e2 hrv h
      simp only [runRepos] at h
      split at h
      · simp at h
      · rename_i tr sm em uf heq
        refine ih _ _ _ _ _ _ _ _ ?_ h
        cases uf
        · simpa using hrv
        · simp

/-- Witness for claim C6 at a concrete input: one repository whose
unlock fails; the loop step rewrites to the continuation with return
value 1, and the completed run ends with return value 1. -/
theorem c6_unlock_failure_warning_only_witness :
    (runRepos ctxUnlockFails ["repo1"] 0 "" "" []
      = runRepos ctxUnlockFails [] 1
          ("" ++ "Snapshot list retreived for repository repo1" ++ ". ")
          ("" ++ "Error listing snapshots on repository /srv/repo1" ++ ". ")
          ([] ++ [("repo1", [ECall.snapshots, ECall.unlock])])) ∧
    (1 : Nat) ≤ 1 :=
  ⟨c6_unlock_failure_warning_only.1 ctxUnlockFails "repo1" [] 0 "" "" []
      [ECall.snapshots, ECall.unlock]
      "Snapshot list retreived for repository repo1"
      "Error listing snapshots on repository /srv/repo1" rfl,
   c6_unlock_failure_warning_only.2 ctxUnlockFails ["repo1"] 0 "" "" []
      [("repo1", [ECall.snapshots, ECall.unlock])] 1
      "Snapshot list retreived for repository repo1. "
      "Error listing snapshots on repository /srv/repo1. "
      (by decide) rfl⟩

/-- Claim C7: for a repository with a static inline secret and no vault
session, get_repo_password returns the stored secret unchanged,
regardless of the (non object-storage) location. -/
theorem c7_static_secret_passthrough (repos : Repos) (currentRepo : String)
    (cfg : RepoConfig) (secret : String)
    (hlook : lookupRepo repos currentRepo = some cfg)
    (hkey : cfg.key = .static secret)
    (hloc : cfg.location.take 3 ≠ "b2:") :
    get_repo_password repos currentRepo none = .ok (.passthrough (.static secret)) := by
  simp [get_repo_password, hlook, hkey]

/-- Witness for claim C7 at a concrete input. -/
theorem c7_static_secret_passthrough_witness :
    lookupRepo [("repo1", cfgStd)] "repo1" = some cfgStd ∧
    cfgStd.key = .static "hunter2" ∧
    cfgStd.location.take 3 ≠ "b2:" ∧
    get_repo_password [("repo1", cfgStd)] "repo1" none
      = .ok (.passthrough (.static "hunter2")) :=
  ⟨rfl, rfl, by decide,
   c7_static_secret_passthrough [("repo1", cfgStd)] "repo1" cfgStd "hunter2"
     rfl rfl (by decide)⟩

/-- Claim C8: a run-action repository whose duplicate reference names a
repository absent from the configuration fails while resolving the
source credentials - the KeyError that realises the ConfigError of the
specification - before any engine call is made for that repository, and
the exception aborts the run. -/
theorem c8_missing_duplicate_source_fails_before_engine (ctx : Ctx)
    (currentRepo : String) (cfg : RepoConfig) (duplicateSource : String)
    (secret : String)
    (hact : ctx.args.action = .run)
    (hvault : ctx.vault = none)
    (hlook : lookupRepo ctx.repos currentRepo = some cfg)
    (hkey : cfg.key = .static secret)
    (hloc : cfg.location.take 3 ≠ "b2:")
    (hdup : cfg.duplicate = some duplicateSource)
    (hsrc : lookupRepo ctx.repos duplicateSource = none) :
    processRepo ctx currentRepo = ([], .error (.keyError duplicateSource)) := by
  simp [processRepo, phase1, get_repo_password, envSetCreds, hvault, hlook,
        hkey, hloc, hdup, hsrc]

/-- Witness for claim C8 at a concrete input. -/
theorem c8_missing_duplicate_source_fails_before_engine_witness :
    ctxDupMissing.args.action = Action.run ∧
    lookupRepo ctxDupMissing.repos "target" = some cfgDupMissing ∧
    cfgDupMissing.duplicate = some "missing" ∧
    lookupRepo ctxDupMissing.repos "missing" = none ∧
    processRepo ctxDupMissing "target" = ([], .error (.keyError "missing")) :=
  ⟨rfl, rfl, rfl, rfl,
   c8_missing_duplicate_source_fails_before_engine ctxDupMissing "target"
     cfgDupMissing "missing" "pw" rfl rfl rfl rfl (by decide) rfl rfl⟩

/-- Claim C9: the age evaluation depends only on the first host group of
the snapshot listing; replacing every further group leaves the verdict
unchanged. -/
theorem c9_age_uses_first_group_only (g : Group) (rest1 rest2 : List Group)
    (currentRepo : String) (maxAge minAge : Nat) (now : Int)
    (errorMessage : String) :
    ageCheckBody (g :: rest1) currentRepo maxAge minAge now errorMessage
      = ageCheckBody (g :: rest2) currentRepo maxAge minAge now errorMessage := rfl

/-- Claim C3: whenever the newest-snapshot age exceeds min_age days,
the age evaluation returns the newest-snapshot error text, overwriting
the single error-message slot whether or not the oldest-age threshold
was also exceeded (last write wins). -/
theorem c3_newest_age_overrides (currentRepo : String) (maxAge minAge : Nat)
    (now : Int) (errorMessage : String) (g : Group) (rest : List Group)
    (t0 : Int) (ts : List Int)
    (hsnap : g.snapshots = t0 :: ts)
    (hnew : now - ts.getLastD t0 > timedeltaDays minAge) :
    ageCheckBody (g :: rest) currentRepo maxAge minAge now errorMessage
      = .ok (newestMsg currentRepo (now - ts.getLastD t0)) := by
  obtain ⟨snaps⟩ := g
  replace hsnap : snaps = t0 :: ts := hsnap
  subst hsnap
  simp only [ageCheckBody]
  rw [if_pos hnew]

/-- Witness for claim C3 at a concrete input: the oldest snapshot is 40
days old against a 30-day maximum (the oldest text is written first)
and the newest is 10 days old against a 7-day minimum, so the result is
the newest text. -/
theorem c3_newest_age_overrides_witness :
    (Group.mk [0, 2592000]).snapshots = 0 :: [2592000] ∧
    (3456000 : Int) - [(2592000 : Int)].getLastD 0 > timedeltaDays 7 ∧
    ageCheckBody [Group.mk [0, 2592000]] "repo1" 30 7 3456000 ""
      = .ok (newestMsg "repo1" (3456000 - [(2592000 : Int)].getLastD 0)) :=
  ⟨rfl, by decide,
   c3_newest_age_overrides "repo1" 30 7 3456000 "" (Group.mk [0, 2592000]) []
     0 [2592000] rfl (by decide)⟩

/-- Claim C1, evaluation at the failing input: a repository whose check
action fails is recorded in the error accumulator, yet the script
return value stays 0 and the run exits 0 (the OK branch of end_script),
not with the CRITICAL exit 2 that the maximum-severity reduction
demands; in the loop only an unlock failure ever raises the return
value, and only to 1. -/
theorem c1_check_failure_exits_ok :
    (runRepos ctxCheckFails ["repo1"] 0 "" "" []).2
      = .ok (0, "Repository repo1 is healthy. ",
             "Error checking repository repo1. ") ∧
    scriptExit ctxCheckFails "ALL_REPOS" = .ok 0 :=
  ⟨rfl, rfl⟩

/-- Claim C2, evaluation at the failing input: with the oldest snapshot
within max_age and the newest within min_age, the success branch of the
age evaluation reads the undefined variable named result, so the code
raises NameError and the run crashes instead of returning OK with both
ages in the detail. -/
theorem c2_age_ok_path_crashes :
    ageCheckBody [Group.mk [7776000, 8553600]] "repo1" 30 7 8640000 ""
      = .error (.nameError "result") ∧
    scriptExit ctxAgeOk "ALL_REPOS" = .error (.nameError "result") :=
  ⟨rfl, rfl⟩

/-- Claim C4, evaluation at the failing input: an empty snapshot list
makes the age evaluation raise IndexError, which the handler (it
catches only the engine error class) does not catch, so the run crashes
instead of recording a CRITICAL outcome for the repository. -/
theorem c4_empty_snapshot_list_crashes :
    ageCheckBody [] "repo1" 30 7 8640000 "" = .error .indexError ∧
    scriptExit ctxEmptySnaps "ALL_REPOS" = .error .indexError :=
  ⟨rfl, rfl⟩

/-- A string with the Error prefix is never empty. -/
theorem err_prefix_ne_empty (t : String) : "Error " ++ t ≠ "" := by
  intro h
  have h2 := congrArg String.length h
  rw [String.length_append] at h2
  rw [show ("Error " : String).length = 6 from rfl] at h2
  rw [show ("" : String).length = 0 from rfl] at h2
  omega

/-- On every completing branch of a non-check action, the error message
produced by the action dispatch carries the Error prefix. -/
theorem primaryAction_err_message (ctx : Ctx) (currentRepo : String)
    (cfg : RepoConfig) (dup : Option String) (env : Env)
    (trAll : List ECall) (sm em loc : String) (env2 : Env)
    (h : primaryAction ctx currentRepo cfg dup env = (trAll, .ok (sm, em, loc, env2)))
    (hact : ctx.args.action ≠ Action.check) :
    ∃ t, em = "Error " ++ t := by
  unfold primaryAction at h
  cases hA : ctx.args.action with
  | check => exact absurd hA hact
  | prune =>
    rw [hA] at h
    simp at h
    split at h
    · simp at h
    · split at h
      · simp at h
      · simp only [Prod.mk.injEq, Except.ok.injEq] at h
        obtain ⟨htr, hsm, hem, hrest⟩ := h
        refine ⟨"cleaning up repository " ++ currentRepo, ?_⟩
        rw [← hem, ← String.append_assoc]
        rfl
  | list =>
    rw [hA] at h
    simp at h
    split at h
    · simp at h
    · split at h
      · simp at h
      · simp only [Prod.mk.injEq, Except.ok.injEq] at h
        obtain ⟨htr, hsm, hem, hrest⟩ := h
        refine ⟨"listing snapshots on repository " ++ cfg.location, ?_⟩
        rw [← hem, ← String.append_assoc]
        rfl
  | run =>
    rw [hA] at h
    simp at h
    split at h
    · simp at h
    · split at h
      · split at h
        · simp at h
        · split at h
          · simp at h
          · simp only [Prod.mk.injEq, Except.ok.injEq] at h
            obtain ⟨htr, hsm, hem, hrest⟩ := h
            refine ⟨"creating new snapshot on repository " ++ cfg.location, ?_⟩
            rw [← hem, ← String.append_assoc]
            rfl
      · split at h
        · simp at h
        · simp only [Prod.mk.injEq, Except.ok.injEq] at h
          obtain ⟨htr, hsm, hem, hrest⟩ := h
          refine ⟨"creating new snapshot on repository " ++ cfg.location, ?_⟩
          rw [← hem, ← String.append_assoc]
          rfl
  | create =>
    rw [hA] at h
    simp at h
    split at h
    · simp at h
    · split at h
      · split at h
        · simp at h
        · split at h
          · simp at h
          · simp only [Prod.mk.injEq, Except.ok.injEq] at h
            obtain ⟨htr, hsm, hem, hrest⟩ := h
            refine ⟨"creating new snapshot on repository " ++ cfg.location, ?_⟩
            rw [← hem, ← String.append_assoc]
            rfl
      · split at h
        · simp at h
        · simp only [Prod.mk.injEq, Except.ok.injEq] at h
          obtain ⟨htr, hsm, hem, hrest⟩ := h
          refine ⟨"creating new snapshot on repository " ++ cfg.location, ?_⟩
          rw [← hem, ← String.append_assoc]
          rfl

/-- Lifting of the error-message shape to a completed loop iteration:
the error fragment of a non-check action is never empty and carries the
Error prefix even when the action succeeded. -/
theorem processRepo_err_message (ctx : Ctx) (currentRepo : String)
    (tr : List ECall) (sm em : String) (uf : Bool)
    (h : processRepo ctx currentRepo = (tr, .ok (sm, em, uf)))
    (hact : ctx.args.action ≠ Action.check) :
    em ≠ "" ∧ ∃ t, em = "Error " ++ t := by
  unfold processRepo at h
  split at h
  · simp at h
  · rename_i cfg dup env hphase
    split at h
    · simp at h
    · rename_i trP sm2 em2 loc2 env2 heq
      have hshape := primaryAction_err_message ctx currentRepo cfg dup env
        trP sm2 em2 loc2 env2 heq hact
      have hem : em2 = em := by
        split at h <;>
          simp only [Prod.mk.injEq, Except.ok.injEq] at h <;>
          exact h.2.2.1
      rw [← hem]
      obtain ⟨t, ht⟩ := hshape
      exact ⟨ht ▸ err_prefix_ne_empty t, t, ht⟩

/-- The error accumulator of a completed loop gains exactly one
fragment per processed repository, each closed by the separator, with
the Error prefix guaranteed for non-check actions. -/
theorem runRepos_err_acc (ctx : Ctx) :
    ∀ (names : List String) (rv : Nat) (sAcc eAcc : String)
      (traces traces2 : List (String × List ECall)) (rv2 : Nat) (s2 e2 : String),
      runRepos ctx names rv sAcc eAcc traces = (traces2, .ok (rv2, s2, e2)) →
      ∃ ems : List String, ems.length = names.length ∧
        e2 = eAcc ++ joinFragments ems ∧
        (ctx.args.action ≠ Action.check →
          ∀ m ∈ ems, m ≠ "" ∧ ∃ t, m = "Error " ++ t) := by
  intro names
  induction names with
  | nil =>
    intro rv sAcc eAcc traces traces2 rv2 s2 e2 h
    simp only [runRepos, Prod.mk.injEq, Except.ok.injEq] at h
    obtain ⟨h1, h2, h3, h4⟩ := h
    refine ⟨[], rfl, ?_, by intro _ m hm; simp at hm⟩
    rw [← h4, joinFragments, String.append_empty]
  | cons r rest ih =>
    intro rv sAcc eAcc traces traces2 rv2 s2 e2 h
    simp only [runRepos] at h
    split at h
    · simp at h
    · rename_i tr sm em uf heq
      obtain ⟨ems, hlen, he, hprop⟩ := ih _ _ _ _ _ _ _ _ h
      refine ⟨em :: ems, by simp [hlen], ?_, ?_⟩
      · rw [he, joinFragments]
        simp [String.append_assoc]
      · intro hact m hm
        rcases List.mem_cons.mp hm with hm1 | hm2
        · subst hm1
          exact processRepo_err_message ctx r tr sm m uf heq hact
        · exact hprop hact m hm2

/-- Claim C10: after a completed run over any repository set, the
accumulated error string is exactly one fragment per repository, each
terminated by the separator, appended whether or not the action
succeeded; outside the check action every fragment is a non-empty
Error text. -/
theorem c10_error_fragments_per_repository (ctx : Ctx) (names : List String)
    (traces2 : List (String × List ECall)) (rv2 : Nat) (s2 e2 : String)
    (h : runRepos ctx names 0 "" "" [] = (traces2, .ok (rv2, s2, e2))) :
    ∃ ems : List String, ems.length = names.length ∧
      e2 = joinFragments ems ∧
      (ctx.args.action ≠ Action.check →
        ∀ m ∈ ems, m ≠ "" ∧ ∃ t, m = "Error " ++ t) := by
  obtain ⟨ems, h1, h2, h3⟩ :=
    runRepos_err_acc ctx names 0 "" "" [] traces2 rv2 s2 e2 h
  rw [String.empty_append] at h2
  exact ⟨ems, h1, h2, h3⟩

/-- Witness for claim C10 at a concrete input: a completed two
repository list run. -/
theorem c10_error_fragments_per_repository_witness :
    ∃ ems : List String, ems.length = (["r1", "r2"] : List String).length ∧
      "Error listing snapshots on repository /srv/r1. Error listing snapshots on repository /srv/r2. "
        = joinFragments ems ∧
      (ctxTwoRepos.args.action ≠ Action.check →
        ∀ m ∈ ems, m ≠ "" ∧ ∃ t, m = "Error " ++ t) :=
  c10_error_fragments_per_repository ctxTwoRepos ["r1", "r2"]
    [("r1", [ECall.snapshots, ECall.unlock]), ("r2", [ECall.snapshots, ECall.unlock])]
    0
    "Snapshot list retreived for repository r1. Snapshot list retreived for repository r2. "
    "Error listing snapshots on repository /srv/r1. Error listing snapshots on repository /srv/r2. "
    rfl

end ResticPyBM
